import Mathlib

/-!
# VPanel: the panel of a vertical layout (`src/js/common/vpanel.js`)

A shallow embedding of the `VPanel` class.

* Pixel values are integers (`Int`); `domutil.getSize` reports integer
  pixel sizes and the configured heights are pixel counts.
* The DOM is not modelled as a store: every method that touches the element
  returns the writes it makes, in program order, as values of `DomWrite`.
  Reads of the rendered size go through a `getSize` function supplied by the
  layout engine (`domutil.getSize`).
* `config.classname` (the class-name registry) and `common.limit` are
  parameters of the constructor. `common.limit` below is the model of the
  clamp helper that is used wherever a written value is computed.
* An option that may be `null` or `undefined` is an `Option Int`; both are
  falsy for `||`, and `none` is passed on unchanged.
-/

/-- Handle of a DOM element (`HTMLElement`). -/
abbrev Elem := Nat

/-- One write performed on a DOM element.
`styleHeight el n` stands for `el.style.height = n + 'px'`. -/
inductive DomWrite where
  | addClass (el : Elem) (className : String)
  | removeClass (el : Elem) (className : String)
  | setData (el : Elem) (key : String) (value : Bool)
  | styleHeight (el : Elem) (px : Int)
  deriving DecidableEq, Repr

/-- The `options` object handed to the constructor; `none` is a key that the
caller did not supply. -/
structure PanelConfig where
  minHeight : Option Int
  height : Option Int
  maxHeight : Option Int
  isSplitter : Option Bool
  autoHeight : Option Bool
  className : Option String
  deriving DecidableEq, Repr

/-- The merged `this.options`. `height` is `null` and `maxHeight` is
`undefined` when they are `none`. -/
structure PanelOptions where
  minHeight : Int
  height : Option Int
  maxHeight : Option Int
  isSplitter : Bool
  autoHeight : Bool
  className : String
  deriving DecidableEq, Repr

/-- The call `util.extend({minHeight: 0, height: null, isSplitter: false,
autoHeight: false, className: ''}, options)` of the constructor: supplied keys
override the defaults, `maxHeight` has no default. -/
def util.extend (options : PanelConfig) : PanelOptions where
  minHeight := options.minHeight.getD 0
  height := options.height
  maxHeight := options.maxHeight
  isSplitter := options.isSplitter.getD false
  autoHeight := options.autoHeight.getD false
  className := options.className.getD ""

/-- JavaScript truthiness of a number-or-absent value: `null`, `undefined`
and `0` are falsy. -/
def truthy : Option Int → Bool
  | some n => n != 0
  | none => false

/-- The expression `x || y` where both sides are a number or absent. -/
def jsOr (x y : Option Int) : Option Int :=
  if truthy x then x else y

/-- The expression `x || d` with a numeric literal `d` on the right. -/
def jsOrNum (x : Option Int) (d : Int) : Int :=
  match x with
  | some n => if n = 0 then d else n
  | none => d

/-- Modelled from the spec: `common.limit` (`js/common/common.js` is not
among the sources), the numeric clamp helper `clamp(value, lowerBound,
upperBound)` giving the value bounded to `[lowerBound, upperBound]`, where a
bound that is unset means no bound on that side. The call site passes the
lower bounds and the upper bounds as arrays. When the bounds cross, the lower
bound prevails: the spec calls `minHeight` the "floor for any computed
height", says that with no explicit max "the only enforced bound is the
minimum", and gives `clamp(20, 50, 20) = 50` in its scenario 2. So the value
is first lowered to the upper bounds and the result is then raised to the
lower bounds. -/
def common.limit (value : Int) (minArr maxArr : List (Option Int)) : Int :=
  let v := maxArr.foldl (fun acc b => match b with
    | some hi => min acc hi
    | none => acc) value
  minArr.foldl (fun acc b => match b with
    | some lo => max acc lo
    | none => acc) v

/-- A panel: the container element kept by the base view and the merged
options. -/
structure VPanel where
  container : Elem
  options : PanelOptions
  deriving DecidableEq, Repr

/-- `VPanel.prototype.isSplitter`. -/
def VPanel.isSplitter (self : VPanel) : Bool :=
  self.options.isSplitter

/-- `VPanel.prototype.setHeight`: `container = container || this.container;
container.style.height = newHeight + 'px'`. -/
def VPanel.setHeight (self : VPanel) (container : Option Elem) (newHeight : Int) : DomWrite :=
  DomWrite.styleHeight (container.getD self.container) newHeight

/-- `VPanel.prototype.getHeight`: `domutil.getSize(this.container)[1]`. -/
def VPanel.getHeight (getSize : Elem → Int × Int) (self : VPanel) : Int :=
  (getSize self.container).2

/-- `VPanel.prototype.getResizeInfoByGrowth`: returns
`[resizeTo, height - resizeTo]`. -/
def VPanel.getResizeInfoByGrowth (getSize : Elem → Int × Int) (self : VPanel)
    (growth : Int) : Int × Int :=
  let height := self.getHeight getSize
  let newHeight := height + growth
  let resizeTo := max (max 0 newHeight) self.options.minHeight
  (resizeTo, height - resizeTo)

/-- `VPanel.prototype.addClass`. -/
def VPanel.addClass (self : VPanel) (className : String) : DomWrite :=
  DomWrite.addClass self.container className

/-- `VPanel.prototype.removeClass`. -/
def VPanel.removeClass (self : VPanel) (className : String) : DomWrite :=
  DomWrite.removeClass self.container className

/-- `VPanel.prototype._initPanel`: the writes made on `container`, in program
order. -/
def VPanel._initPanel (classname : String → String)
    (limit : Int → List (Option Int) → List (Option Int) → Int) (self : VPanel)
    (options : PanelOptions) (container : Elem) : List DomWrite :=
  if options.isSplitter then
    [DomWrite.addClass container (classname "splitter")]
  else
    (if options.className = "" then [] else [DomWrite.addClass container options.className]) ++
    (if options.autoHeight then
      [DomWrite.setData container "autoHeight" true]
    else
      [self.setHeight (some container)
        (limit (jsOrNum options.height 0)
          [some options.minHeight]
          [jsOr options.maxHeight options.height])])

/-- The constructor `VPanel(options, container)`: the panel object and the
writes of its initialisation. Of `View.call(this, container)` (the base view,
`view/view.js`, is not among the sources) only the stored container is kept;
the writes listed are those of the panel code itself. -/
def VPanel.create (classname : String → String)
    (limit : Int → List (Option Int) → List (Option Int) → Int) (options : PanelConfig)
    (container : Elem) : VPanel × List DomWrite :=
  let self : VPanel := { container := container, options := util.extend options }
  (self, self._initPanel classname limit self.options container)

/-- The heights written to the style of element `el` by a sequence of
writes. -/
def heightWrites (el : Elem) (trace : List DomWrite) : List Int :=
  trace.filterMap (fun w => match w with
    | DomWrite.styleHeight e px => if e = el then some px else none
    | _ => none)

/-- The value that the specification gives for the height written at
construction: `clamp(height ?? 0, minHeight, maxHeight ?? (height ?? 0))`,
where `??` falls back only when its left operand is absent. -/
def specInitHeight (options : PanelConfig) : Int :=
  common.limit (options.height.getD 0)
    [some (options.minHeight.getD 0)]
    [some (options.maxHeight.getD (options.height.getD 0))]

/-- The upper bound that `_initPanel` passes to `common.limit`:
`maxHeight` when it is configured and not zero, the configured height
otherwise (absent when the height is absent as well). -/
def effectiveMax (options : PanelConfig) : Option Int :=
  match options.maxHeight with
  | some m => if m = 0 then options.height else some m
  | none => options.height

/-- A plain panel on element `0` whose only setting is its minimum height,
for the examples. -/
def panelOf (minHeight : Int) : VPanel :=
  { container := 0,
    options := { minHeight := minHeight, height := none, maxHeight := none,
                 isSplitter := false, autoHeight := false, className := "" } }

/-- The splitter-free options used in the examples: only the three heights
are supplied. -/
def heightsOnly (minHeight height maxHeight : Option Int) : PanelConfig :=
  { minHeight := minHeight, height := height, maxHeight := maxHeight,
    isSplitter := none, autoHeight := none, className := none }

/-! ## Auxiliary facts -/

theorem limit_single (value lo : Int) (hi : Option Int) :
    common.limit value [some lo] [hi] =
      match hi with
      | some m => max (min value m) lo
      | none => max value lo := by
  cases hi <;> simp [common.limit]

theorem jsOrNum_zero (x : Option Int) : jsOrNum x 0 = x.getD 0 := by
  cases x with
  | none => rfl
  | some n =>
    by_cases h : n = 0
    · simp [jsOrNum, h]
    · simp [jsOrNum, h]

theorem jsOr_eq_effectiveMax (options : PanelConfig) :
    jsOr options.maxHeight options.height = effectiveMax options := by
  cases hm : options.maxHeight with
  | none => simp [jsOr, truthy, effectiveMax, hm]
  | some m =>
    by_cases h : m = 0
    · simp [jsOr, truthy, effectiveMax, hm, h]
    · simp [jsOr, truthy, effectiveMax, hm, h]

theorem heightWrites_append (el : Elem) (xs ys : List DomWrite) :
    heightWrites el (xs ++ ys) = heightWrites el xs ++ heightWrites el ys := by
  simp [heightWrites, List.filterMap_append]

theorem create_trace_fixed (classname : String → String)
    (limit : Int → List (Option Int) → List (Option Int) → Int) (options : PanelConfig)
    (container : Elem) (hs : options.isSplitter ≠ some true)
    (ha : options.autoHeight ≠ some true) :
    (VPanel.create classname limit options container).2 =
      (if options.className.getD "" = "" then []
        else [DomWrite.addClass container (options.className.getD "")]) ++
      [DomWrite.styleHeight container
        (limit (options.height.getD 0) [some (options.minHeight.getD 0)]
          [effectiveMax options])] := by
  have h1 : options.isSplitter.getD false = false := by
    cases h : options.isSplitter with
    | none => rfl
    | some b => cases b <;> simp_all
  have h2 : options.autoHeight.getD false = false := by
    cases h : options.autoHeight with
    | none => rfl
    | some b => cases b <;> simp_all
  simp [VPanel.create, VPanel._initPanel, util.extend, VPanel.setHeight, h1, h2,
    jsOrNum_zero, jsOr_eq_effectiveMax]

theorem create_heightWrites_fixed (classname : String → String)
    (limit : Int → List (Option Int) → List (Option Int) → Int) (options : PanelConfig)
    (container : Elem) (hs : options.isSplitter ≠ some true)
    (ha : options.autoHeight ≠ some true) :
    heightWrites container (VPanel.create classname limit options container).2 =
      [limit (options.height.getD 0) [some (options.minHeight.getD 0)]
        [effectiveMax options]] := by
  rw [create_trace_fixed classname limit options container hs ha, heightWrites_append]
  by_cases hc : options.className.getD "" = "" <;> simp [heightWrites, hc]

/-! ## getResizeInfoByGrowth -/

/-- C1: for every measured height `h`, every `minHeight` and every signed
growth `g`, `getResizeInfoByGrowth(g)` returns the pair
`(resizedHeight, remainder)` with `resizedHeight = max(0, h + g, minHeight)`
and `remainder = h - resizedHeight`; for `h = 200`, `minHeight = 50`,
`g = -300` the pair is `(50, 150)`. -/
theorem getResizeInfoByGrowth_eq :
    (∀ (getSize : Elem → Int × Int) (self : VPanel) (growth : Int),
      self.getResizeInfoByGrowth getSize growth =
        (max 0 (max (self.getHeight getSize + growth) self.options.minHeight),
          self.getHeight getSize -
            max 0 (max (self.getHeight getSize + growth) self.options.minHeight))) ∧
    (panelOf 50).getResizeInfoByGrowth (fun _ => (0, 200)) (-300) = (50, 150) := by
  refine ⟨?_, by decide⟩
  intro getSize self growth
  simp only [VPanel.getResizeInfoByGrowth, max_assoc]

/-- C4: the resized height returned by `getResizeInfoByGrowth` is never
negative and never below `minHeight`, whatever the growth. -/
theorem resizedHeight_ge_floor (getSize : Elem → Int × Int) (self : VPanel) (growth : Int) :
    0 ≤ (self.getResizeInfoByGrowth getSize growth).1 ∧
    self.options.minHeight ≤ (self.getResizeInfoByGrowth getSize growth).1 := by
  simp only [VPanel.getResizeInfoByGrowth]
  constructor
  · exact le_trans (le_max_left 0 _) (le_max_left _ _)
  · exact le_max_right _ _

/-- C8: when `h + g >= minHeight`, the result of `getResizeInfoByGrowth(g)`
conserves the height: `resizedHeight + remainder = h`. -/
theorem resize_conserves_height (getSize : Elem → Int × Int) (self : VPanel) (growth : Int)
    (hfloor : self.options.minHeight ≤ self.getHeight getSize + growth) :
    (self.getResizeInfoByGrowth getSize growth).1 +
      (self.getResizeInfoByGrowth getSize growth).2 = self.getHeight getSize := by
  simp only [VPanel.getResizeInfoByGrowth]
  omega

theorem resize_conserves_height_witness :
    (panelOf 50).options.minHeight ≤ (panelOf 50).getHeight (fun _ => (0, 200)) + (-100) ∧
    ((panelOf 50).getResizeInfoByGrowth (fun _ => (0, 200)) (-100)).1 +
      ((panelOf 50).getResizeInfoByGrowth (fun _ => (0, 200)) (-100)).2 =
        (panelOf 50).getHeight (fun _ => (0, 200)) :=
  ⟨by decide, resize_conserves_height (fun _ => (0, 200)) (panelOf 50) (-100) (by decide)⟩

/-- C9, as stated, fails: a panel of height 100 with `minHeight = 0` grown by
10 is resized to 110, the floor does not bind, and the remainder is `-10`,
which is neither `g - (resizedHeight - h) = 0` nor `0`. -/
theorem remainder_unabsorbed_counterexample :
    max 0 (panelOf 0).options.minHeight ≤ (panelOf 0).getHeight (fun _ => (0, 100)) + 10 ∧
    (panelOf 0).getResizeInfoByGrowth (fun _ => (0, 100)) 10 = (110, -10) ∧
    ((panelOf 0).getResizeInfoByGrowth (fun _ => (0, 100)) 10).2 ≠
      10 - (((panelOf 0).getResizeInfoByGrowth (fun _ => (0, 100)) 10).1 -
        (panelOf 0).getHeight (fun _ => (0, 100))) ∧
    ((panelOf 0).getResizeInfoByGrowth (fun _ => (0, 100)) 10).2 ≠ 0 := by
  decide

/-- C9, amended: the remainder is the negated height change of the panel,
`remainder = -(resizedHeight - h)`, so that `remainder = -g` whenever the
floor does not bind (`h + g >= max(0, minHeight)`). -/
theorem remainder_negated_change (getSize : Elem → Int × Int) (self : VPanel) (growth : Int) :
    (self.getResizeInfoByGrowth getSize growth).2 =
      -((self.getResizeInfoByGrowth getSize growth).1 - self.getHeight getSize) ∧
    (max 0 self.options.minHeight ≤ self.getHeight getSize + growth →
      (self.getResizeInfoByGrowth getSize growth).2 = -growth) := by
  simp only [VPanel.getResizeInfoByGrowth]
  constructor
  · omega
  · intro h
    omega

theorem remainder_negated_change_witness :
    max 0 (panelOf 50).options.minHeight ≤ (panelOf 50).getHeight (fun _ => (0, 200)) + (-100) ∧
    ((panelOf 50).getResizeInfoByGrowth (fun _ => (0, 200)) (-100)).2 = -(-100) :=
  ⟨by decide,
    (remainder_negated_change (fun _ => (0, 200)) (panelOf 50) (-100)).2 (by decide)⟩

/-- C10: the remainder equals `-g` exactly when `h + g >= max(0, minHeight)`;
when the floor binds, `resizedHeight = max(0, minHeight)` and
`remainder = h - max(0, minHeight)` is strictly less than `-g`. -/
theorem remainder_eq_neg_growth_iff (getSize : Elem → Int × Int) (self : VPanel)
    (growth : Int) :
    ((self.getResizeInfoByGrowth getSize growth).2 = -growth ↔
      max 0 self.options.minHeight ≤ self.getHeight getSize + growth) ∧
    (self.getHeight getSize + growth < max 0 self.options.minHeight →
      (self.getResizeInfoByGrowth getSize growth).1 = max 0 self.options.minHeight ∧
      (self.getResizeInfoByGrowth getSize growth).2 =
        self.getHeight getSize - max 0 self.options.minHeight ∧
      (self.getResizeInfoByGrowth getSize growth).2 < -growth) := by
  simp only [VPanel.getResizeInfoByGrowth]
  refine ⟨⟨fun h => ?_, fun h => ?_⟩, fun h => ⟨?_, ?_, ?_⟩⟩ <;> omega

theorem remainder_eq_neg_growth_iff_witness :
    (panelOf 50).getHeight (fun _ => (0, 200)) + (-300) < max 0 (panelOf 50).options.minHeight ∧
    ((panelOf 50).getResizeInfoByGrowth (fun _ => (0, 200)) (-300)).1 =
      max 0 (panelOf 50).options.minHeight ∧
    ((panelOf 50).getResizeInfoByGrowth (fun _ => (0, 200)) (-300)).2 =
      (panelOf 50).getHeight (fun _ => (0, 200)) - max 0 (panelOf 50).options.minHeight ∧
    ((panelOf 50).getResizeInfoByGrowth (fun _ => (0, 200)) (-300)).2 < -(-300) :=
  ⟨by decide,
    (remainder_eq_neg_growth_iff (fun _ => (0, 200)) (panelOf 50) (-300)).2 (by decide)⟩

/-! ## Construction -/

/-- C5: when `isSplitter` is true, whatever height, minHeight, autoHeight and
className are supplied, construction adds exactly the registered splitter
class to the element and makes no other write: no height style, no
auto-height data flag, no `className`. -/
theorem create_splitter (classname : String → String)
    (limit : Int → List (Option Int) → List (Option Int) → Int) (options : PanelConfig)
    (container : Elem) (hs : options.isSplitter = some true) :
    (VPanel.create classname limit options container).2 =
      [DomWrite.addClass container (classname "splitter")] ∧
    heightWrites container (VPanel.create classname limit options container).2 = [] ∧
    (∀ el key value,
      DomWrite.setData el key value ∉ (VPanel.create classname limit options container).2) := by
  have htrace : (VPanel.create classname limit options container).2 =
      [DomWrite.addClass container (classname "splitter")] := by
    simp [VPanel.create, VPanel._initPanel, util.extend, hs]
  rw [htrace]
  refine ⟨rfl, ?_, ?_⟩
  · simp [heightWrites]
  · intro el key value
    simp

theorem create_splitter_witness :
    (PanelConfig.mk (some 50) (some 100) (some 80) (some true) (some true) (some "foo")).isSplitter
      = some true ∧
    (VPanel.create (fun n => "tui-" ++ n) common.limit
      (PanelConfig.mk (some 50) (some 100) (some 80) (some true) (some true) (some "foo")) 3).2 =
      [DomWrite.addClass 3 ((fun n => "tui-" ++ n) "splitter")] :=
  ⟨rfl, (create_splitter (fun n => "tui-" ++ n) common.limit
    (PanelConfig.mk (some 50) (some 100) (some 80) (some true) (some true) (some "foo")) 3
    rfl).1⟩

/-- C6: for a panel that is not a splitter and has `autoHeight = true`,
whatever height, minHeight and maxHeight are supplied, construction sets the
auto-height data flag of the element to true and writes no height style. -/
theorem create_autoHeight (classname : String → String)
    (limit : Int → List (Option Int) → List (Option Int) → Int) (options : PanelConfig)
    (container : Elem) (hs : options.isSplitter ≠ some true)
    (ha : options.autoHeight = some true) :
    DomWrite.setData container "autoHeight" true ∈
      (VPanel.create classname limit options container).2 ∧
    (∀ el px,
      DomWrite.styleHeight el px ∉ (VPanel.create classname limit options container).2) := by
  have h1 : options.isSplitter.getD false = false := by
    cases h : options.isSplitter with
    | none => rfl
    | some b => cases b <;> simp_all
  constructor
  · simp [VPanel.create, VPanel._initPanel, util.extend, h1, ha]
  · intro el px
    by_cases hc : options.className.getD "" = "" <;>
      simp [VPanel.create, VPanel._initPanel, util.extend, h1, ha, hc]

theorem create_autoHeight_witness :
    (PanelConfig.mk (some 50) (some 100) (some 80) none (some true) (some "foo")).isSplitter
      ≠ some true ∧
    (PanelConfig.mk (some 50) (some 100) (some 80) none (some true) (some "foo")).autoHeight
      = some true ∧
    DomWrite.setData 3 "autoHeight" true ∈
      (VPanel.create id common.limit
        (PanelConfig.mk (some 50) (some 100) (some 80) none (some true) (some "foo")) 3).2 :=
  ⟨by decide, rfl, (create_autoHeight id common.limit
    (PanelConfig.mk (some 50) (some 100) (some 80) none (some true) (some "foo")) 3
    (by decide) rfl).1⟩

/-- C2, as stated, fails: with `height: 100`, `maxHeight: 0` and
`minHeight: 0` the panel is neither a splitter nor auto-height, construction
writes `limit(100, [0], [100]) = 100`, and `clamp(height ?? 0, minHeight,
maxHeight ?? (height ?? 0))` is `clamp(100, 0, 0) = 0`. -/
theorem create_height_counterexample :
    (heightsOnly (some 0) (some 100) (some 0)).isSplitter ≠ some true ∧
    (heightsOnly (some 0) (some 100) (some 0)).autoHeight ≠ some true ∧
    heightWrites 0
      (VPanel.create id common.limit (heightsOnly (some 0) (some 100) (some 0)) 0).2 = [100] ∧
    specInitHeight (heightsOnly (some 0) (some 100) (some 0)) = 0 ∧
    heightWrites 0
      (VPanel.create id common.limit (heightsOnly (some 0) (some 100) (some 0)) 0).2 ≠
      [specInitHeight (heightsOnly (some 0) (some 100) (some 0))] := by
  decide

/-- C2, amended: for every config that is neither a splitter nor auto-height,
the height written at construction is `clamp(height ?? 0, minHeight, upper)`
where `upper` is `maxHeight` when it is configured and not zero, and the
configured height otherwise, handed on as it is (an explicit `maxHeight` of 0
counts as absent). This holds whatever the clamp helper computes. -/
theorem create_height_eq (classname : String → String)
    (limit : Int → List (Option Int) → List (Option Int) → Int) (options : PanelConfig)
    (container : Elem) (hs : options.isSplitter ≠ some true)
    (ha : options.autoHeight ≠ some true) :
    heightWrites container (VPanel.create classname limit options container).2 =
      [limit (options.height.getD 0) [some (options.minHeight.getD 0)]
        [match options.maxHeight with
          | some m => if m = 0 then options.height else some m
          | none => options.height]] := by
  have h := create_heightWrites_fixed classname limit options container hs ha
  simpa [effectiveMax] using h

theorem create_height_eq_witness :
    (heightsOnly (some 10) (some 100) (some 80)).isSplitter ≠ some true ∧
    (heightsOnly (some 10) (some 100) (some 80)).autoHeight ≠ some true ∧
    heightWrites 5
      (VPanel.create id common.limit (heightsOnly (some 10) (some 100) (some 80)) 5).2 =
      [common.limit ((heightsOnly (some 10) (some 100) (some 80)).height.getD 0)
        [some ((heightsOnly (some 10) (some 100) (some 80)).minHeight.getD 0)]
        [match (heightsOnly (some 10) (some 100) (some 80)).maxHeight with
          | some m => if m = 0 then (heightsOnly (some 10) (some 100) (some 80)).height
              else some m
          | none => (heightsOnly (some 10) (some 100) (some 80)).height]] :=
  ⟨by decide, by decide,
    create_height_eq id common.limit (heightsOnly (some 10) (some 100) (some 80)) 5
      (by decide) (by decide)⟩

/-- C3: for every config that is neither a splitter nor auto-height, has no
maxHeight and has a configured height below minHeight, the height written at
construction is minHeight: the clamp `common.limit` applies the floor. The
config `{minHeight: 50, height: 20}` writes the height 50. -/
theorem create_floor_applied (classname : String → String) (options : PanelConfig)
    (container : Elem) (h : Int) (hs : options.isSplitter ≠ some true)
    (ha : options.autoHeight ≠ some true) (hmax : options.maxHeight = none)
    (hh : options.height = some h) (hlt : h < options.minHeight.getD 0) :
    heightWrites container (VPanel.create classname common.limit options container).2 =
      [options.minHeight.getD 0] ∧
    heightWrites 0
      (VPanel.create id common.limit (heightsOnly (some 50) (some 20) none) 0).2 = [50] := by
  refine ⟨?_, by decide⟩
  rw [create_heightWrites_fixed classname common.limit options container hs ha]
  have he : effectiveMax options = some h := by simp [effectiveMax, hmax, hh]
  rw [he, limit_single, hh]
  simp only [Option.getD_some, min_self]
  rw [max_eq_right (le_of_lt hlt)]

theorem create_floor_applied_witness :
    (heightsOnly (some 50) (some 20) none).isSplitter ≠ some true ∧
    (heightsOnly (some 50) (some 20) none).autoHeight ≠ some true ∧
    (heightsOnly (some 50) (some 20) none).maxHeight = none ∧
    (heightsOnly (some 50) (some 20) none).height = some 20 ∧
    (20 : Int) < (heightsOnly (some 50) (some 20) none).minHeight.getD 0 ∧
    heightWrites 7
      (VPanel.create id common.limit (heightsOnly (some 50) (some 20) none) 7).2 =
      [(heightsOnly (some 50) (some 20) none).minHeight.getD 0] :=
  ⟨by decide, by decide, rfl, rfl, by decide,
    (create_floor_applied id (heightsOnly (some 50) (some 20) none) 7 20
      (by decide) (by decide) rfl rfl (by decide)).1⟩

/-- C7, as stated, fails in three ways. On a panel built from
`{minHeight: 50, height: 100}` a later `setHeight(undefined, 10)` writes the
height 10 on the element of the panel, below `minHeight = 50`. Construction
from `{minHeight: 50, height: 20}` writes 50, above the requested height 20
that the claim takes as the effective maximum. Construction from
`{minHeight: 0, height: 100, maxHeight: 0}` writes 100, above the configured
`maxHeight = 0`. -/
theorem written_height_counterexample :
    ((VPanel.create id common.limit (heightsOnly (some 50) (some 100) none) 0).1.options.minHeight
      = 50 ∧
    (VPanel.create id common.limit (heightsOnly (some 50) (some 100) none) 0).1.setHeight none 10
      = DomWrite.styleHeight
        (VPanel.create id common.limit (heightsOnly (some 50) (some 100) none) 0).1.container
        10 ∧
    ¬ ((VPanel.create id common.limit
        (heightsOnly (some 50) (some 100) none) 0).1.options.minHeight ≤ 10)) ∧
    (heightWrites 0
        (VPanel.create id common.limit (heightsOnly (some 50) (some 20) none) 0).2 = [50] ∧
      (heightsOnly (some 50) (some 20) none).maxHeight = none ∧
      (heightsOnly (some 50) (some 20) none).height = some 20 ∧
      ¬ ((50 : Int) ≤ 20)) ∧
    (heightWrites 0
        (VPanel.create id common.limit (heightsOnly (some 0) (some 100) (some 0)) 0).2
        = [100] ∧
      (heightsOnly (some 0) (some 100) (some 0)).maxHeight = some 0 ∧
      ¬ ((100 : Int) ≤ 0)) := by
  decide

/-- C7, amended: `setHeight` writes exactly the requested height, with no
clamping; the height written at construction (panel neither splitter nor
auto-height) is never below `minHeight`, and it lies in
`[minHeight, effectiveMax]` whenever `minHeight` is not above the effective
maximum, which is `maxHeight` when configured and not zero and the requested
height `height ?? 0` otherwise. -/
theorem written_height_bounds (classname : String → String) (options : PanelConfig)
    (container : Elem) (self : VPanel) (newHeight : Int)
    (hs : options.isSplitter ≠ some true) (ha : options.autoHeight ≠ some true) :
    heightWrites self.container [self.setHeight none newHeight] = [newHeight] ∧
    ∃ n, heightWrites container
        (VPanel.create classname common.limit options container).2 = [n] ∧
      options.minHeight.getD 0 ≤ n ∧
      (options.minHeight.getD 0 ≤ (effectiveMax options).getD (options.height.getD 0) →
        n ≤ (effectiveMax options).getD (options.height.getD 0)) := by
  constructor
  · simp [heightWrites, VPanel.setHeight]
  · refine ⟨_, create_heightWrites_fixed classname common.limit options container hs ha,
      ?_, ?_⟩
    · rw [limit_single]
      cases effectiveMax options <;> exact le_max_right _ _
    · rw [limit_single]
      cases effectiveMax options with
      | none =>
        intro hle
        exact max_le (le_refl _) hle
      | some upper =>
        intro hle
        exact max_le (min_le_right _ _) hle

theorem written_height_bounds_witness :
    (heightsOnly (some 50) (some 120) (some 80)).isSplitter ≠ some true ∧
    (heightsOnly (some 50) (some 120) (some 80)).autoHeight ≠ some true ∧
    (heightsOnly (some 50) (some 120) (some 80)).minHeight.getD 0 ≤
      (effectiveMax (heightsOnly (some 50) (some 120) (some 80))).getD
        ((heightsOnly (some 50) (some 120) (some 80)).height.getD 0) ∧
    ∃ n, heightWrites 4
        (VPanel.create id common.limit (heightsOnly (some 50) (some 120) (some 80)) 4).2
        = [n] ∧
      (heightsOnly (some 50) (some 120) (some 80)).minHeight.getD 0 ≤ n ∧
      n ≤ (effectiveMax (heightsOnly (some 50) (some 120) (some 80))).getD
        ((heightsOnly (some 50) (some 120) (some 80)).height.getD 0) :=
  ⟨by decide, by decide, by decide,
    (written_height_bounds id (heightsOnly (some 50) (some 120) (some 80)) 4 (panelOf 50) 10
      (by decide) (by decide)).2.imp
      (fun _ hn => ⟨hn.1, hn.2.1, hn.2.2 (by decide)⟩)⟩
